import Mathlib

/-!
Shallow embedding of the lazy-fetch item cache `_ItemFetcher`
(pykusto/_src/item_fetcher.py).

The class caches a map of named items.  Fetch jobs are submitted to a
process-wide worker pool; the model makes the scheduling explicit:
each submitted fetch is a queued ticket, and every blocking wait is given a
number `k` of queued fetches that the worker finishes before the wait
returns (a timeout that elapses first corresponds to a smaller `k`, since a
timed-out wait releases the caller without cancelling the fetch).

The two abstract methods are supplied as capabilities: `new_item` stands for
the `_new_item` override and `internal_get_items` for the
`_internal_get_items` override.  The latter is indexed by the ticket of the
fetch invoking it, because every fetch performs its own remote call and may
observe a different remote state; `Except.error` models the remote call
raising an exception.

Besides the object fields, the model records the observables the
specification talks about: the queue of submitted-but-unfinished tickets,
the resolution (success or failure) of every finished ticket, the number of
remote-listing invocations, the list of names the constructor capability was
invoked on, and a trace of lock and capability-invocation events.
-/

namespace Pykusto

/-- Python dict read `d.get(key)`: the value stored at the matching key. -/
def dictGet {α : Type} (d : List (String × α)) (key : String) : Option α :=
  match d with
  | [] => none
  | (k1, v) :: rest => if k1 = key then some v else dictGet rest key

/-- Python dict write `d[key] = v`: replace in place, append when absent
(Python dicts keep insertion order). -/
def dictSet {α : Type} (d : List (String × α)) (key : String) (v : α) :
    List (String × α) :=
  match d with
  | [] => [(key, v)]
  | (k1, v1) :: rest =>
    if k1 = key then (k1, v) :: rest else (k1, v1) :: dictSet rest key v

/-- Observable events: taking and releasing `__items_lock`, and the two
capability invocations. -/
inductive Ev where
  | lockAcquire
  | lockRelease
  | listingInvoke
  | ctorInvoke (name : String)
deriving DecidableEq

/-- The two abstract methods of `_ItemFetcher`, supplied by subclasses. -/
structure Caps (Item : Type) where
  new_item : String → Item
  internal_get_items : Nat → Except Unit (List (String × Item))

/-- The instance fields of `_ItemFetcher` (the lock itself is modelled by
the trace events and by the atomicity of the steps below).  `__future`
holds the ticket of the most recently submitted fetch. -/
structure ItemFetcher (Item : Type) where
  _fetch_by_default : Bool
  __fetched : Bool
  __items : Option (List (String × Item))
  __future : Option Nat

/-- One fetcher object together with the scheduling state of the shared
worker pool and the recorded observables. -/
structure Sys (Item : Type) where
  f : ItemFetcher Item
  /-- tickets submitted to the pool and not yet executed, in FIFO order -/
  pending : List Nat
  /-- finished tickets with their resolution (`true` = completed,
  `false` = the remote call raised and the future holds the exception) -/
  results : List (Nat × Bool)
  /-- next fresh ticket -/
  nextTicket : Nat
  /-- how many times `_internal_get_items` ran -/
  listingCalls : Nat
  /-- the names `_new_item` was invoked on, in order -/
  ctorCalls : List String
  trace : List Ev

/-- `__init__(items, fetch_by_default)`: `self.__fetched = self.__items is
not None`, no fetch is scheduled by the constructor itself. -/
def __init__ {Item : Type} (items : Option (List (String × Item)))
    (fetch_by_default : Bool) : Sys Item :=
  { f := { _fetch_by_default := fetch_by_default
         , __fetched := items.isSome
         , __items := items
         , __future := none }
  , pending := []
  , results := []
  , nextTicket := 0
  , listingCalls := 0
  , ctorCalls := []
  , trace := [] }

/-- `__init__` at the item type used by the theorems below. -/
def initN (items : Option (List (String × Nat))) (b : Bool) : Sys Nat :=
  __init__ items b

/-- `_items_fetched()`. -/
def _items_fetched {Item : Type} (s : Sys Item) : Bool :=
  s.f.__fetched

/-- `refresh()`: `self.__future = _POOL.submit(self.__fetch_items)` — a new
ticket is queued unconditionally and becomes the tracked future. -/
def refresh {Item : Type} (s : Sys Item) : Sys Item :=
  { s with f := { s.f with __future := some s.nextTicket }
         , pending := s.pending ++ [s.nextTicket]
         , nextTicket := s.nextTicket + 1 }

/-- The body of `__fetch_items` run by the worker for ticket `t`:
`with self.__items_lock: self.__items = self._internal_get_items()`.
The remote call happens inside the `with` block, so the lock is held across
it; on success the returned map is assigned to `__items` as a whole (the
assert `self.__items is not None` then holds); if the remote call raises,
the assignment never happens, the `with` statement still releases the lock,
and the future records the exception (ticket resolved `false`). -/
def __fetch_items {Item : Type} (caps : Caps Item) (t : Nat) (s : Sys Item) :
    Sys Item :=
  match caps.internal_get_items t with
  | Except.ok m =>
    { s with f := { s.f with __items := some m }
           , results := s.results ++ [(t, true)]
           , listingCalls := s.listingCalls + 1
           , trace := s.trace ++ [Ev.lockAcquire, Ev.listingInvoke, Ev.lockRelease] }
  | Except.error _ =>
    { s with results := s.results ++ [(t, false)]
           , listingCalls := s.listingCalls + 1
           , trace := s.trace ++ [Ev.lockAcquire, Ev.listingInvoke, Ev.lockRelease] }

/-- The single worker executes the first `k` queued fetches, in FIFO order. -/
def runPending {Item : Type} (caps : Caps Item) (k : Nat) (s : Sys Item) :
    Sys Item :=
  match k with
  | 0 => s
  | Nat.succ k1 =>
    match s.pending with
    | [] => s
    | t :: rest => runPending caps k1 (__fetch_items caps t { s with pending := rest })

/-- Scheduler step for the concurrency claims: the queued fetches finish in
the given wall-clock completion order (tickets not queued are skipped).
With the shipped pool this order is the FIFO submission order; the install
logic of `__fetch_items` itself is completion-order driven. -/
def runOrder {Item : Type} (caps : Caps Item) (order : List Nat) (s : Sys Item) :
    Sys Item :=
  match order with
  | [] => s
  | t :: rest =>
    if s.pending.contains t then
      runOrder caps rest (__fetch_items caps t { s with pending := s.pending.erase t })
    else
      runOrder caps rest s

/-- `wait_for_items(timeout_seconds)`: a no-op when no future exists;
otherwise the caller blocks while the worker finishes `k` queued fetches
(`k` is the scheduling outcome of the bounded wait). -/
def wait_for_items {Item : Type} (caps : Caps Item) (k : Nat) (s : Sys Item) :
    Sys Item :=
  match s.f.__future with
  | none => s
  | some _ => runPending caps k s

/-- `blocking_refresh(timeout_seconds)` = `refresh()` then `wait_for_items`. -/
def blocking_refresh {Item : Type} (caps : Caps Item) (k : Nat) (s : Sys Item) :
    Sys Item :=
  wait_for_items caps k (refresh s)

/-- `blocking_refresh_if_needed(timeout_seconds)`: refresh and wait only when
`not self.__fetched and self._fetch_by_default`. -/
def blocking_refresh_if_needed {Item : Type} (caps : Caps Item) (k : Nat)
    (s : Sys Item) : Sys Item :=
  if !s.f.__fetched && s.f._fetch_by_default then
    wait_for_items caps k (refresh s)
  else s

/-- `_refresh_if_needed()`: refresh without waiting, under the same guard. -/
def _refresh_if_needed {Item : Type} (s : Sys Item) : Sys Item :=
  if !s.f.__fetched && s.f._fetch_by_default then refresh s else s

/-- `if self.__items is None: self.__items = {}` — the lazily initialized
dict used inside `__generate_and_save_new_item`. -/
def itemsOrEmpty {Item : Type} (o : Option (List (String × Item))) :
    List (String × Item) :=
  match o with
  | none => []
  | some d => d

/-- `__generate_and_save_new_item(name)`: the whole check-then-construct-
then-insert sequence runs inside `with self.__items_lock`, so the
constructor capability is invoked with the lock held, on the calling
thread.  Returns the existing or the newly inserted item. -/
def __generate_and_save_new_item {Item : Type} (caps : Caps Item)
    (name : String) (s : Sys Item) : Sys Item × Item :=
  match dictGet (itemsOrEmpty s.f.__items) name with
  | some item =>
    ({ s with f := { s.f with __items := some (itemsOrEmpty s.f.__items) }
            , trace := s.trace ++ [Ev.lockAcquire, Ev.lockRelease] }, item)
  | none =>
    let inserted := dictSet (itemsOrEmpty s.f.__items) name (caps.new_item name)
    ({ s with f := { s.f with __items := some inserted }
            , ctorCalls := s.ctorCalls ++ [name]
            , trace := s.trace ++ [Ev.lockAcquire, Ev.ctorInvoke name, Ev.lockRelease] },
     caps.new_item name)

/-- Outcome of a lookup: the item, the `AttributeError` raised by the
`__getattr__` fallback, or the `AttributeError` raised by
`self.__items.get(name)` when `__items` is still `None`. -/
inductive GetRes (Item : Type) where
  | ok (item : Item)
  | attrError
  | noneGetError
deriving DecidableEq

/-- The tail of `_get_item`: `resolved_item = self.__items.get(name)`,
falling back when the result is `None`. -/
def resolveItem {Item : Type} (name : String)
    (fallback : Sys Item → Sys Item × GetRes Item) (s : Sys Item) :
    Sys Item × GetRes Item :=
  match s.f.__items with
  | none => (s, GetRes.noneGetError)
  | some d =>
    match dictGet d name with
    | none => fallback s
    | some item => (s, GetRes.ok item)

/-- `_get_item(name, fallback, fetch_if_needed, timeout_seconds)`: when the
fetched flag is unset, either perform a `blocking_refresh` (bounded by the
timeout, here by the worker progress `k`) and then look up, or return the
fallback immediately when `fetch_if_needed` is false. -/
def _get_item {Item : Type} (caps : Caps Item) (name : String)
    (fallback : Sys Item → Sys Item × GetRes Item) (fetch_if_needed : Bool)
    (k : Nat) (s : Sys Item) : Sys Item × GetRes Item :=
  if !s.f.__fetched then
    if fetch_if_needed then
      resolveItem name fallback (blocking_refresh caps k s)
    else
      fallback s
  else
    resolveItem name fallback s

/-- The `__getattr__` fallback: raise `AttributeError`. -/
def getattrFallback {Item : Type} (s : Sys Item) : Sys Item × GetRes Item :=
  (s, GetRes.attrError)

/-- `__getattr__(name)` (dot access / get-or-fail): `_get_item` with the
raising fallback, `fetch_if_needed=True`, `timeout_seconds=3`. -/
def __getattr__ {Item : Type} (caps : Caps Item) (k : Nat) (name : String)
    (s : Sys Item) : Sys Item × GetRes Item :=
  _get_item caps name getattrFallback true k s

/-- The `__getitem__` fallback: `__generate_and_save_new_item(name)`. -/
def getitemFallback {Item : Type} (caps : Caps Item) (name : String)
    (s : Sys Item) : Sys Item × GetRes Item :=
  ((__generate_and_save_new_item caps name s).1,
   GetRes.ok (__generate_and_save_new_item caps name s).2)

/-- `__getitem__(name)` (bracket access / get-or-create): `_get_item` with
the generating fallback, `fetch_if_needed=True`, `timeout_seconds=3`. -/
def __getitem__ {Item : Type} (caps : Caps Item) (k : Nat) (name : String)
    (s : Sys Item) : Sys Item × GetRes Item :=
  _get_item caps name (getitemFallback caps name) true k s

/-- `_get_item_names()`: `blocking_refresh_if_needed()` then
`yield from self.__items.keys()`; when `__items` is still `None`, iterating
raises (`NoneType` has no `keys`), modelled as `Except.error`. -/
def _get_item_names {Item : Type} (caps : Caps Item) (k : Nat) (s : Sys Item) :
    Sys Item × Except Unit (List String) :=
  let s1 := blocking_refresh_if_needed caps k s
  match s1.f.__items with
  | none => (s1, Except.error ())
  | some d => (s1, Except.ok (d.map Prod.fst))

/-- Is an event a capability invocation? -/
def isInvoke : Ev → Bool
  | Ev.listingInvoke => true
  | Ev.ctorInvoke _ => true
  | _ => false

/-- Does some capability invocation in the trace happen while the lock is
held (`depth` = current lock depth)? -/
def anyInvokeLocked : List Ev → Nat → Bool
  | [], _ => false
  | e :: rest, depth =>
    match e with
    | Ev.lockAcquire => anyInvokeLocked rest (depth + 1)
    | Ev.lockRelease => anyInvokeLocked rest (depth - 1)
    | _ => (isInvoke e && decide (0 < depth)) || anyInvokeLocked rest depth

/-- Does every capability invocation in the trace happen while the lock is
held? -/
def allInvokesLocked : List Ev → Nat → Bool
  | [], _ => true
  | e :: rest, depth =>
    match e with
    | Ev.lockAcquire => allInvokesLocked rest (depth + 1)
    | Ev.lockRelease => allInvokesLocked rest (depth - 1)
    | _ => (!(isInvoke e) || decide (0 < depth)) && allInvokesLocked rest depth

/-- Concrete capabilities: the remote listing always returns `{"a": 1}`. -/
def capsA : Caps Nat :=
  { new_item := fun _ => 0
  , internal_get_items := fun _ => Except.ok [("a", 1)] }

/-- Concrete capabilities: the remote listing always returns the empty map,
the constructor returns `7`. -/
def capsB : Caps Nat :=
  { new_item := fun _ => 7
  , internal_get_items := fun _ => Except.ok [] }

/-- A store built with no initial items and `fetch_by_default = False`,
after one bracket access to the absent name `x`. -/
def oneGet : Sys Nat :=
  (__getitem__ capsB 1 "x" (initN none false)).1

/-- The same store after a second bracket access to the same name `x`. -/
def twoGets : Sys Nat :=
  (__getitem__ capsB 1 "x" oneGet).1

/-- A store built with no initial items and `fetch_by_default = True`, after
`refresh()` and the completion of the scheduled fetch. -/
def afterRefreshFetch : Sys Nat :=
  runPending capsA 1 (refresh (initN none true))

/-- Concrete capabilities for the C5 scenario: the fetch of ticket `0`
lists `{"a": 1}`, every later fetch lists `{"b": 2}`. -/
def capsC : Caps Nat :=
  { new_item := fun _ => 0
  , internal_get_items := fun t =>
      if t = 0 then Except.ok [("a", 1)] else Except.ok [("b", 2)] }

/-- A store built with no initial items and `fetch_by_default = True`, after
`refresh()` and the completion of that fetch, under `capsC`. -/
def afterFirstFetch : Sys Nat :=
  runPending capsC 1 (refresh (initN none true))

/-- C1: on a store created without initial items, `refresh()` is called and
the scheduled fetch completes successfully (ticket `0` resolves `true`) and
installs its map — yet `_items_fetched()` still returns `false`:
`__fetch_items` never sets `__fetched`, so the store never reaches the
`Fetched` state the claim describes. -/
theorem fetch_completion_never_sets_fetched_flag :
    afterRefreshFetch.results = [(0, true)] ∧
    afterRefreshFetch.f.__items = some [("a", 1)] ∧
    _items_fetched afterRefreshFetch = false :=
  ⟨rfl, rfl, rfl⟩

/-- C2: after the first bracket access `store["x"]` the store already maps
`"x"` (to the constructed item `7`), yet a second bracket access to the
same name invokes the constructor capability again: the never-set fetched
flag makes the second access run another blocking fetch whose install wipes
the inserted entry, so `ctorCalls = ["x", "x"]` instead of at most one
construction per name. -/
theorem get_or_create_constructs_twice_same_name :
    oneGet.f.__items = some [("x", 7)] ∧
    twoGets.ctorCalls = ["x", "x"] :=
  ⟨rfl, rfl⟩

/-- C3 counterexample: on a never-fetched store with
`fetch_by_default = false`, bracket access still performs a fetch before the
lookup — the remote listing runs once and a ticket was submitted — refuting
the claim that no fetch happens when `fetch_by_default` is false. -/
theorem getitem_fetches_despite_flag_false :
    oneGet.listingCalls = 1 ∧ oneGet.nextTicket = 1 :=
  ⟨rfl, rfl⟩

/-- C4 counterexample: on a store built with no initial items and
`fetch_by_default = false`, listing the item names triggers no fetch, but it
does not return an empty collection of names: `__items` is still `None`, so
iterating its keys raises. -/
theorem get_item_names_errors_when_unfetched :
    (_get_item_names capsB 0 (initN none false)).2 = Except.error () ∧
    (_get_item_names capsB 0 (initN none false)).2 ≠ Except.ok [] ∧
    (_get_item_names capsB 0 (initN none false)).1.listingCalls = 0 := by
  refine ⟨rfl, ?_, rfl⟩
  intro h
  exact Except.noConfusion h

/-- C4 amended: on a store built with no initial items and
`fetch_by_default = false`, `_get_item_names` leaves the store completely
unchanged (in particular it triggers no fetch) and raises instead of
producing names, since the items map is still `None`. -/
theorem get_item_names_unfetched_no_fetch (caps : Caps Nat) (k : Nat) :
    _get_item_names caps k (initN none false) =
      (initN none false, Except.error ()) :=
  rfl

/-- C5: the store has already completed a fetch (ticket `0` resolved `true`,
map `{"a": 1}` installed), and `"b"` is absent from the current map — per
the claim, dot access `store.b` must raise after no further fetch.  The
code instead performs another bounded fetch (the fetched flag was never
set), installs `{"b": 2}` and returns the item: the remote listing has now
run twice and no `AttributeError` is raised. -/
theorem getattr_refetches_after_completed_fetch :
    afterFirstFetch.f.__items = some [("a", 1)] ∧
    afterFirstFetch.results = [(0, true)] ∧
    (__getattr__ capsC 1 "b" afterFirstFetch).2 = GetRes.ok 2 ∧
    (__getattr__ capsC 1 "b" afterFirstFetch).1.listingCalls = 2 :=
  ⟨rfl, rfl, rfl, rfl⟩

/-- C7 counterexample: in the concrete execution of `store["x"]` on a fresh
store, the full event trace is the remote-listing invocation bracketed by
the lock, followed by the constructor invocation bracketed by the lock —
and thus some capability invocation happens while the lock is held,
refuting the claim that capabilities never execute under the lock. -/
theorem constructor_invoked_while_lock_held :
    oneGet.trace = [Ev.lockAcquire, Ev.listingInvoke, Ev.lockRelease,
                    Ev.lockAcquire, Ev.ctorInvoke "x", Ev.lockRelease] ∧
    anyInvokeLocked oneGet.trace 0 = true :=
  ⟨rfl, rfl⟩

/-- `__fetch_items` does not submit new fetches. -/
theorem fetch_items_nextTicket (caps : Caps Nat) (t : Nat) (s : Sys Nat) :
    (__fetch_items caps t s).nextTicket = s.nextTicket := by
  unfold __fetch_items
  cases hc : caps.internal_get_items t <;> simp [hc]

/-- Worker progress does not submit new fetches. -/
theorem runPending_nextTicket (caps : Caps Nat) (k : Nat) (s : Sys Nat) :
    (runPending caps k s).nextTicket = s.nextTicket := by
  induction k generalizing s with
  | zero => rfl
  | succ k1 ih =>
    unfold runPending
    cases hp : s.pending with
    | nil => rfl
    | cons t rest =>
      rw [ih, fetch_items_nextTicket]

/-- `blocking_refresh` submits exactly one fetch. -/
theorem blocking_refresh_nextTicket (caps : Caps Nat) (k : Nat) (s : Sys Nat) :
    (blocking_refresh caps k s).nextTicket = s.nextTicket + 1 := by
  show (runPending caps k (refresh s)).nextTicket = s.nextTicket + 1
  rw [runPending_nextTicket]
  rfl

/-- `__generate_and_save_new_item` does not submit fetches. -/
theorem generate_nextTicket (caps : Caps Nat) (name : String) (s : Sys Nat) :
    (__generate_and_save_new_item caps name s).1.nextTicket = s.nextTicket := by
  unfold __generate_and_save_new_item
  cases hd : dictGet (itemsOrEmpty s.f.__items) name <;> simp [hd]

/-- The lookup phase does not submit fetches when the fallback does not. -/
theorem resolveItem_nextTicket (name : String)
    (fb : Sys Nat → Sys Nat × GetRes Nat)
    (hfb : ∀ s1 : Sys Nat, (fb s1).1.nextTicket = s1.nextTicket) (s : Sys Nat) :
    (resolveItem name fb s).1.nextTicket = s.nextTicket := by
  unfold resolveItem
  cases hi : s.f.__items with
  | none => rfl
  | some d => cases hd : dictGet d name <;> simp [hd, hfb]

/-- C3 amended: bracket access performs the prior bounded fetch exactly when
the fetched flag is unset, regardless of `fetch_by_default` (the guard in
`_get_item` is only `not self.__fetched`, and `blocking_refresh` is
unconditional); when the flag is set, no fetch is submitted. -/
theorem getitem_fetch_condition (caps : Caps Nat) (k : Nat) (name : String)
    (s : Sys Nat) :
    (s.f.__fetched = false →
      (__getitem__ caps k name s).1.nextTicket = s.nextTicket + 1) ∧
    (s.f.__fetched = true →
      (__getitem__ caps k name s).1.nextTicket = s.nextTicket) := by
  have hfb : ∀ s1 : Sys Nat,
      (getitemFallback caps name s1).1.nextTicket = s1.nextTicket :=
    fun s1 => generate_nextTicket caps name s1
  constructor
  · intro h
    unfold __getitem__ _get_item
    rw [h]
    simp only [Bool.not_false, if_true]
    rw [resolveItem_nextTicket name _ hfb, blocking_refresh_nextTicket]
  · intro h
    unfold __getitem__ _get_item
    rw [h]
    simp only [Bool.not_true, if_neg]
    exact resolveItem_nextTicket name _ hfb s

/-- Witness for C3 amended at a concrete input. -/
theorem getitem_fetch_condition_w :
    (__getitem__ capsB 1 "x" (initN none false)).1.nextTicket = 0 + 1 :=
  (getitem_fetch_condition capsB 1 "x" (initN none false)).1 rfl

/-- C6: when the remote listing of the first fetch raises, the item map is
left unchanged at its prior state (the initial `items`, in particular
`Uninitialized` when `None`), the ticket resolves as failed rather than
leaving the store in `Fetching`, and a subsequent dot access whose retry
fetch succeeds returns the item. -/
theorem failed_fetch_preserves_state_and_retry_succeeds (b : Bool)
    (m0 : Option (List (String × Nat))) (m : List (String × Nat))
    (name : String) (i : Nat) (caps : Caps Nat)
    (h0 : caps.internal_get_items 0 = Except.error ())
    (h1 : caps.internal_get_items 1 = Except.ok m)
    (hm : dictGet m name = some i) :
    (runPending caps 1 (refresh (__init__ m0 b))).f.__items = m0 ∧
    (runPending caps 1 (refresh (__init__ m0 b))).results = [(0, false)] ∧
    (m0 = none →
      (__getattr__ caps 1 name (runPending caps 1 (refresh (__init__ m0 b)))).2
        = GetRes.ok i) := by
  have hrun : runPending caps 1 (refresh (__init__ m0 b)) =
      { f := { _fetch_by_default := b, __fetched := m0.isSome
             , __items := m0, __future := some 0 }
      , pending := [], results := [(0, false)], nextTicket := 1
      , listingCalls := 1, ctorCalls := []
      , trace := [Ev.lockAcquire, Ev.listingInvoke, Ev.lockRelease] } := by
    simp [runPending, refresh, __init__, __fetch_items, h0]
  refine ⟨by rw [hrun], by rw [hrun], ?_⟩
  intro he
  subst he
  rw [hrun]
  simp [__getattr__, _get_item, resolveItem, getattrFallback, blocking_refresh,
    wait_for_items, refresh, runPending, __fetch_items, h1, hm]

/-- Concrete capabilities for the C6 witness: the first fetch raises, later
fetches list `{"a": 5}`. -/
def capsD : Caps Nat :=
  { new_item := fun _ => 0
  , internal_get_items := fun t =>
      if t = 0 then Except.error () else Except.ok [("a", 5)] }

/-- Witness for C6 at a concrete input. -/
theorem failed_fetch_preserves_state_and_retry_succeeds_w :
    (runPending capsD 1 (refresh (__init__ none false))).f.__items = none ∧
    (__getattr__ capsD 1 "a"
      (runPending capsD 1 (refresh (__init__ none false)))).2 = GetRes.ok 5 := by
  have h := failed_fetch_preserves_state_and_retry_succeeds false none
    [("a", 5)] "a" 5 capsD rfl rfl rfl
  exact ⟨h.1, h.2.2 rfl⟩

/-- C7 amended: both capability invocations happen while `__items_lock` is
held — `__fetch_items` invokes the remote listing inside its `with` block
(on the worker thread) and `__generate_and_save_new_item` invokes the
constructor inside its `with` block (on the calling thread); the lock is
not limited to the bare swap or insert.  Every capability invocation in the
traces of the two cited functions occurs at positive lock depth, and the
fetch trace really contains a listing invocation. -/
theorem all_capability_invocations_under_lock (s : Sys Nat) (caps : Caps Nat)
    (name : String) (t : Nat) (h : s.trace = []) :
    allInvokesLocked ((__generate_and_save_new_item caps name s).1.trace) 0 = true ∧
    allInvokesLocked ((__fetch_items caps t s).trace) 0 = true ∧
    Ev.listingInvoke ∈ (__fetch_items caps t s).trace := by
  refine ⟨?_, ?_, ?_⟩
  · unfold __generate_and_save_new_item
    cases hd : dictGet (itemsOrEmpty s.f.__items) name <;>
      simp [hd, h, allInvokesLocked, isInvoke]
  · unfold __fetch_items
    cases hc : caps.internal_get_items t <;>
      simp [hc, h, allInvokesLocked, isInvoke]
  · unfold __fetch_items
    cases hc : caps.internal_get_items t <;> simp [hc, h]

/-- Witness for C7 amended at a concrete input. -/
theorem all_capability_invocations_under_lock_w :
    allInvokesLocked
      ((__generate_and_save_new_item capsB "x" (initN none false)).1.trace) 0 = true ∧
    allInvokesLocked ((__fetch_items capsB 0 (initN none false)).trace) 0 = true :=
  ⟨(all_capability_invocations_under_lock (initN none false) capsB "x" 0 rfl).1,
   (all_capability_invocations_under_lock (initN none false) capsB "x" 0 rfl).2.1⟩

/-- The operations a caller can perform without explicitly calling
`refresh` (or `blocking_refresh`, which contains it). -/
inductive Op where
  | getattrOp (name : String) (k : Nat)
  | getitemOp (name : String) (k : Nat)
  | getNamesOp (k : Nat)
  | refreshIfNeededOp
  | blockingRefreshIfNeededOp (k : Nat)
  | waitOp (k : Nat)

/-- Run one non-refresh operation, keeping the resulting state. -/
def applyOp (caps : Caps Nat) (op : Op) (s : Sys Nat) : Sys Nat :=
  match op with
  | Op.getattrOp name k => (__getattr__ caps k name s).1
  | Op.getitemOp name k => (__getitem__ caps k name s).1
  | Op.getNamesOp k => (_get_item_names caps k s).1
  | Op.refreshIfNeededOp => _refresh_if_needed s
  | Op.blockingRefreshIfNeededOp k => blocking_refresh_if_needed caps k s
  | Op.waitOp k => wait_for_items caps k s

/-- Run a sequence of non-refresh operations. -/
def applyOps (caps : Caps Nat) (ops : List Op) (s : Sys Nat) : Sys Nat :=
  match ops with
  | [] => s
  | op :: rest => applyOps caps rest (applyOp caps op s)

/-- Invariant for C8: the store is marked fetched and no fetch was ever
scheduled (no future, no queued or resolved ticket, no listing call). -/
def noFetchInv (s : Sys Nat) : Prop :=
  s.f.__fetched = true ∧ s.f.__future = none ∧ s.pending = [] ∧
  s.results = [] ∧ s.nextTicket = 0 ∧ s.listingCalls = 0

/-- The lookup phase preserves any property the fallback preserves. -/
theorem resolveItem_preserves (name : String)
    (fb : Sys Nat → Sys Nat × GetRes Nat) (P : Sys Nat → Prop)
    (hfb : ∀ s1, P s1 → P (fb s1).1) (s : Sys Nat) (h : P s) :
    P (resolveItem name fb s).1 := by
  unfold resolveItem
  cases hi : s.f.__items with
  | none => exact h
  | some d =>
    cases hd : dictGet d name with
    | none => simpa [hd] using hfb s h
    | some it => simpa [hd] using h

/-- When the fetched flag is set, `_get_item` goes straight to the lookup. -/
theorem _get_item_fetched (caps : Caps Nat) (name : String)
    (fb : Sys Nat → Sys Nat × GetRes Nat) (fneed : Bool) (k : Nat)
    (s : Sys Nat) (h : s.f.__fetched = true) :
    _get_item caps name fb fneed k s = resolveItem name fb s := by
  unfold _get_item
  simp [h]

/-- Single-entry insertion never schedules a fetch. -/
theorem generate_noFetchInv (caps : Caps Nat) (name : String) (s : Sys Nat)
    (h : noFetchInv s) :
    noFetchInv (__generate_and_save_new_item caps name s).1 := by
  unfold __generate_and_save_new_item
  cases hd : dictGet (itemsOrEmpty s.f.__items) name <;> exact h

/-- On a store marked fetched with no scheduled fetch, no non-refresh
operation schedules (or runs) a fetch. -/
theorem applyOp_noFetchInv (caps : Caps Nat) (op : Op) (s : Sys Nat)
    (h : noFetchInv s) : noFetchInv (applyOp caps op s) := by
  obtain ⟨h1, h2, h3, h4, h5, h6⟩ := h
  cases op with
  | getattrOp name k =>
    simp only [applyOp, __getattr__, _get_item_fetched caps name getattrFallback true k s h1]
    exact resolveItem_preserves name _ noFetchInv (fun s1 hs1 => hs1) s
      ⟨h1, h2, h3, h4, h5, h6⟩
  | getitemOp name k =>
    simp only [applyOp, __getitem__,
      _get_item_fetched caps name (getitemFallback caps name) true k s h1]
    exact resolveItem_preserves name _ noFetchInv
      (fun s1 hs1 => generate_noFetchInv caps name s1 hs1) s
      ⟨h1, h2, h3, h4, h5, h6⟩
  | getNamesOp k =>
    have hbr : blocking_refresh_if_needed caps k s = s := by
      unfold blocking_refresh_if_needed
      simp [h1]
    simp only [applyOp, _get_item_names, hbr]
    cases hi : s.f.__items <;> exact ⟨h1, h2, h3, h4, h5, h6⟩
  | refreshIfNeededOp =>
    have hr : _refresh_if_needed s = s := by
      unfold _refresh_if_needed
      simp [h1]
    simp only [applyOp, hr]
    exact ⟨h1, h2, h3, h4, h5, h6⟩
  | blockingRefreshIfNeededOp k =>
    have hbr : blocking_refresh_if_needed caps k s = s := by
      unfold blocking_refresh_if_needed
      simp [h1]
    simp only [applyOp, hbr]
    exact ⟨h1, h2, h3, h4, h5, h6⟩
  | waitOp k =>
    have hw : wait_for_items caps k s = s := by
      unfold wait_for_items
      simp [h2]
    simp only [applyOp, hw]
    exact ⟨h1, h2, h3, h4, h5, h6⟩

/-- The invariant is preserved by any sequence of non-refresh operations. -/
theorem applyOps_noFetchInv (caps : Caps Nat) (ops : List Op) (s : Sys Nat)
    (h : noFetchInv s) : noFetchInv (applyOps caps ops s) := by
  induction ops generalizing s with
  | nil => exact h
  | cons op rest ih => exact ih (applyOp caps op s) (applyOp_noFetchInv caps op s h)

/-- C8: a store constructed with an explicit non-`None` initial map is
marked fetched immediately, and after any sequence of non-refresh
operations (for every `fetch_by_default`) the remote listing has never been
invoked, no ticket was ever submitted or resolved, and no future exists —
no background fetch happens until `refresh()` is called explicitly. -/
theorem initial_items_no_fetch_until_refresh (ops : List Op)
    (m : List (String × Nat)) (b : Bool) (caps : Caps Nat) :
    _items_fetched (applyOps caps ops (initN (some m) b)) = true ∧
    (applyOps caps ops (initN (some m) b)).listingCalls = 0 ∧
    (applyOps caps ops (initN (some m) b)).nextTicket = 0 ∧
    (applyOps caps ops (initN (some m) b)).f.__future = none ∧
    (applyOps caps ops (initN (some m) b)).results = [] := by
  have h := applyOps_noFetchInv caps ops (initN (some m) b)
    ⟨rfl, rfl, rfl, rfl, rfl, rfl⟩
  exact ⟨h.1, h.2.2.2.2.2, h.2.2.2.2.1, h.2.1, h.2.2.2.1⟩

/-- C9: two back-to-back `refresh()` calls queue two distinct tickets (they
are not coalesced) and each runs its own remote listing; the installed map
is the one of whichever fetch completes last in wall-clock order — in
particular, when the second-issued fetch completes before the first, the
final map is the first fetch's result (and in submission order it is the
second's). -/
theorem double_refresh_last_completed_wins (b : Bool)
    (m1 m2 : List (String × Nat)) (caps : Caps Nat)
    (h1 : caps.internal_get_items 0 = Except.ok m1)
    (h2 : caps.internal_get_items 1 = Except.ok m2) :
    (refresh (refresh (initN none b))).pending = [0, 1] ∧
    (refresh (refresh (initN none b))).nextTicket = 2 ∧
    (runOrder caps [1, 0] (refresh (refresh (initN none b)))).f.__items = some m1 ∧
    (runOrder caps [1, 0] (refresh (refresh (initN none b)))).listingCalls = 2 ∧
    (runOrder caps [0, 1] (refresh (refresh (initN none b)))).f.__items = some m2 := by
  refine ⟨rfl, rfl, ?_, ?_, ?_⟩ <;>
    simp +decide [runOrder, refresh, initN, __init__, __fetch_items, h1, h2]

/-- Concrete capabilities for the C9 witness: the first-issued fetch lists
`{"p": 1}`, the second lists `{"q": 2}`. -/
def capsF : Caps Nat :=
  { new_item := fun _ => 0
  , internal_get_items := fun t =>
      if t = 0 then Except.ok [("p", 1)] else Except.ok [("q", 2)] }

/-- Witness for C9 at a concrete input. -/
theorem double_refresh_last_completed_wins_w :
    (runOrder capsF [1, 0] (refresh (refresh (initN none false)))).f.__items
      = some [("p", 1)] :=
  (double_refresh_last_completed_wins false [("p", 1)] [("q", 2)] capsF rfl rfl).2.2.1

/-- A name whose lookup misses is not among the dict keys. -/
theorem dictGet_none_not_mem {α : Type} (d : List (String × α)) (key : String)
    (h : dictGet d key = none) : key ∉ d.map Prod.fst := by
  induction d with
  | nil => simp
  | cons p rest ih =>
    obtain ⟨k1, v⟩ := p
    simp only [dictGet] at h
    by_cases hk : k1 = key
    · rw [if_pos hk] at h
      exact absurd h (by simp)
    · rw [if_neg hk] at h
      simp only [List.map_cons, List.mem_cons]
      rintro (hh | hh)
      · exact hk hh.symm
      · exact ih h hh

/-- A store built with initial items `m0`, after `store[name]` inserted a
constructed item for the absent `name`. -/
def afterInsert (caps : Caps Nat) (m0 : List (String × Nat)) (b : Bool)
    (name : String) : Sys Nat :=
  (__getitem__ caps 0 name (initN (some m0) b)).1

/-- The same store after `refresh()` and the completion of that fetch. -/
def afterInstall (caps : Caps Nat) (m0 : List (String × Nat)) (b : Bool)
    (name : String) : Sys Nat :=
  runOrder caps [0] (refresh (afterInsert caps m0 b name))

/-- C10: a completed fetch replaces the entire item map in one assignment:
an item previously inserted by bracket access under a name absent from the
listing result is gone after the install — dot access raises, the name
listing equals the names of the installed map (which do not include the
inserted name), and a later bracket access does not find the old item but
invokes the constructor again. -/
theorem fetch_install_replaces_map (m0 m : List (String × Nat)) (b : Bool)
    (name : String) (caps : Caps Nat)
    (h0 : dictGet m0 name = none)
    (h1 : dictGet m name = none)
    (hc : caps.internal_get_items 0 = Except.ok m) :
    (afterInsert caps m0 b name).f.__items
      = some (dictSet m0 name (caps.new_item name)) ∧
    (afterInstall caps m0 b name).f.__items = some m ∧
    (__getattr__ caps 0 name (afterInstall caps m0 b name)).2 = GetRes.attrError ∧
    (_get_item_names caps 0 (afterInstall caps m0 b name)).2
      = Except.ok (m.map Prod.fst) ∧
    name ∉ m.map Prod.fst ∧
    (__getitem__ caps 0 name (afterInstall caps m0 b name)).1.ctorCalls
      = (afterInstall caps m0 b name).ctorCalls ++ [name] := by
  have hins : afterInsert caps m0 b name =
      { f := { _fetch_by_default := b, __fetched := true
             , __items := some (dictSet m0 name (caps.new_item name))
             , __future := none }
      , pending := [], results := [], nextTicket := 0, listingCalls := 0
      , ctorCalls := [name]
      , trace := [Ev.lockAcquire, Ev.ctorInvoke name, Ev.lockRelease] } := by
    unfold afterInsert __getitem__ initN __init__
    rw [_get_item_fetched _ _ _ _ _ _ rfl]
    simp [resolveItem, getitemFallback, __generate_and_save_new_item,
      itemsOrEmpty, h0]
  have hinst : afterInstall caps m0 b name =
      { f := { _fetch_by_default := b, __fetched := true
             , __items := some m, __future := some 0 }
      , pending := [], results := [(0, true)], nextTicket := 1, listingCalls := 1
      , ctorCalls := [name]
      , trace := [Ev.lockAcquire, Ev.ctorInvoke name, Ev.lockRelease,
                  Ev.lockAcquire, Ev.listingInvoke, Ev.lockRelease] } := by
    unfold afterInstall
    rw [hins]
    simp +decide [runOrder, refresh, __fetch_items, hc]
  refine ⟨by rw [hins], by rw [hinst], ?_, ?_, dictGet_none_not_mem m name h1, ?_⟩
  · rw [hinst, __getattr__, _get_item_fetched _ _ _ _ _ _ rfl]
    simp [resolveItem, getattrFallback, h1]
  · rw [hinst]
    simp [_get_item_names, blocking_refresh_if_needed]
  · rw [hinst, __getitem__, _get_item_fetched _ _ _ _ _ _ rfl]
    simp [resolveItem, getitemFallback, __generate_and_save_new_item,
      itemsOrEmpty, h1]

/-- Witness for C10 at a concrete input. -/
theorem fetch_install_replaces_map_w :
    (afterInstall capsA [] true "x").f.__items = some [("a", 1)] ∧
    (__getattr__ capsA 0 "x" (afterInstall capsA [] true "x")).2
      = GetRes.attrError := by
  have h := fetch_install_replaces_map [] [("a", 1)] true "x" capsA rfl
    (by decide) rfl
  exact ⟨h.2.1, h.2.2.1⟩

end Pykusto
